import Mathlib

/-!
Shallow embedding of `src/apps/frontend/components/LiveAISuggestions.tsx`.

The component keeps six pieces of React state (`suggestions`, `isConnected`,
`lastUpdate`, `currentCall`, `isLiveStreaming`, `connectionStatus`); the
transport callbacks (`onConnect`, `onDisconnect`, `onError`, `onMessage`),
the per-suggestion action handler, and the clear-all handler are embedded as
pure state-transition functions.  The wall-clock timestamp taken by
`new Date().toISOString()` is passed in as an explicit `now` argument.
-/

namespace LiveAISuggestions

/-- Delivery mode of a suggestion (field `deliver_as` of `AISuggestion`). -/
inductive DeliverAs where
  | say
  | internal_note
  | immediate_response
deriving DecidableEq

/-- Embedding of the `AISuggestion` record (lines 7-14 of the source).
The `confidence` float is modelled as a rational number; no claim depends on
floating-point behaviour. -/
structure AISuggestion where
  text : String
  offer_id : String
  type : String
  confidence : Rat
  deliver_as : DeliverAs
  reasoning : Option String
deriving DecidableEq

/-- Call metadata delivered in `message.callData`.  The component stores it
without inspecting it, so it is modelled as an abstract one-field record. -/
structure CallData where
  callSid : String
deriving DecidableEq

/-- Embedding of the inbound `WebSocketMessage` shape
`\x7b type, suggestions?, callData?, transcript? \x7d`.  An `Option` field is
`some` exactly when the corresponding JavaScript field is present (and hence
truthy, since arrays and objects are truthy even when empty). -/
structure WebSocketMessage where
  type : String
  suggestions : Option (List AISuggestion)
  callData : Option CallData
  transcript : Option String
deriving DecidableEq

/-- The four values of the `connectionStatus` state (line 36 of the source). -/
inductive ConnectionStatus where
  | connecting
  | connected
  | disconnected
  | error
deriving DecidableEq

/-- The component's React state, one field per `useState` hook. -/
structure ComponentState where
  suggestions : List AISuggestion
  isConnected : Bool
  lastUpdate : String
  currentCall : Option CallData
  isLiveStreaming : Bool
  connectionStatus : ConnectionStatus
deriving DecidableEq

/-- Initial values of the six `useState` hooks (lines 31-36 of the source). -/
def initialState : ComponentState where
  suggestions := []
  isConnected := false
  lastUpdate := ""
  currentCall := none
  isLiveStreaming := false
  connectionStatus := ConnectionStatus.connecting

/-- Embedding of `combined.slice(-maxSuggestions)` (lines 83 and 101).
ECMAScript `slice` with a negative argument keeps the trailing `n` elements,
but `-0` equals `+0`, so `slice(-0)` is `slice(0)` and copies the whole
array: a cap of `0` performs no trimming at all. -/
def sliceLast (n : Nat) (l : List AISuggestion) : List AISuggestion :=
  if n = 0 then l else l.drop (l.length - n)

/-- Embedding of the `wsClient.onConnect` callback (lines 57-61). -/
def wsOnConnect (st : ComponentState) : ComponentState :=
  { st with isConnected := true, connectionStatus := ConnectionStatus.connected }

/-- Embedding of the `wsClient.onDisconnect` callback (lines 63-67). -/
def wsOnDisconnect (st : ComponentState) : ComponentState :=
  { st with isConnected := false, connectionStatus := ConnectionStatus.disconnected }

/-- Embedding of the `wsClient.onError` callback (lines 69-72). -/
def wsOnError (st : ComponentState) : ComponentState :=
  { st with connectionStatus := ConnectionStatus.error }

/-- Embedding of the `wsClient.onMessage` dispatch (lines 74-126).  The
branch order and conditions mirror the source: the first branch fires when
the declared type is `suggestions` or the message carries any `suggestions`
field (JavaScript truthiness of `message.suggestions`); the final implicit
branch of the if/else chain leaves the state unchanged. -/
def onMessage (maxSuggestions : Nat) (st : ComponentState) (message : WebSocketMessage)
    (now : String) : ComponentState :=
  if message.type == "suggestions" || message.suggestions.isSome then
    { st with
        suggestions := sliceLast maxSuggestions (st.suggestions ++ message.suggestions.getD [])
        lastUpdate := now }
  else if message.type == "instant_suggestions" then
    { st with
        suggestions := sliceLast maxSuggestions (st.suggestions ++ message.suggestions.getD [])
        lastUpdate := now }
  else if message.type == "call_started" then
    { st with currentCall := message.callData, isLiveStreaming := true }
  else if message.type == "call_ended" then
    { st with currentCall := none, isLiveStreaming := false }
  else if message.type == "transcript_chunk" then
    st
  else
    st

/-- The two user intents of `handleSuggestionAction` (line 135). -/
inductive SuggestionAction where
  | use
  | dismiss
deriving DecidableEq

/-- Embedding of `handleSuggestionAction` (lines 135-146): `use` only logs,
`dismiss` filters out every suggestion whose `offer_id` equals the target's. -/
def handleSuggestionAction (st : ComponentState) (suggestion : AISuggestion)
    (action : SuggestionAction) : ComponentState :=
  match action with
  | SuggestionAction.use => st
  | SuggestionAction.dismiss =>
      { st with
          suggestions := st.suggestions.filter (fun s => s.offer_id != suggestion.offer_id) }

/-- Embedding of `clearAllSuggestions` (lines 148-151). -/
def clearAllSuggestions (st : ComponentState) : ComponentState :=
  { st with suggestions := [], lastUpdate := "" }

/-- A transport callback event: which of the three connection callbacks fired. -/
inductive TransportEvent where
  | connect
  | disconnect
  | error
deriving DecidableEq

/-- Dispatch of one transport callback on the component state. -/
def transportStep (st : ComponentState) (e : TransportEvent) : ComponentState :=
  match e with
  | TransportEvent.connect => wsOnConnect st
  | TransportEvent.disconnect => wsOnDisconnect st
  | TransportEvent.error => wsOnError st

/-- The status value each transport callback writes. -/
def eventStatus : TransportEvent → ConnectionStatus
  | TransportEvent.connect => ConnectionStatus.connected
  | TransportEvent.disconnect => ConnectionStatus.disconnected
  | TransportEvent.error => ConnectionStatus.error

/-- State reached from a fresh mount after a sequence of transport callbacks. -/
def runTransport (events : List TransportEvent) : ComponentState :=
  events.foldl transportStep initialState

/-- A pure suggestions-batch message, as pushed by the upstream producer. -/
def suggestionsMessage (batch : List AISuggestion) : WebSocketMessage where
  type := "suggestions"
  suggestions := some batch
  callData := none
  transcript := none

/-- State reached from a fresh mount after a sequence of suggestion batches
(the timestamps do not influence the buffer, so a fixed one is used). -/
def applyBatches (maxSuggestions : Nat) (batches : List (List AISuggestion)) :
    ComponentState :=
  batches.foldl (fun st batch => onMessage maxSuggestions st (suggestionsMessage batch) "")
    initialState

/-- Process a list of timestamped inbound messages in order. -/
def processMessages (maxSuggestions : Nat) (st : ComponentState)
    (msgs : List (WebSocketMessage × String)) : ComponentState :=
  msgs.foldl (fun s p => onMessage maxSuggestions s p.1 p.2) st

/-- Concrete suggestion with sequential id used in the spec scenarios. -/
def mkSuggestion (i : Nat) : AISuggestion where
  text := ""
  offer_id := "s" ++ toString i
  type := ""
  confidence := 0
  deliver_as := DeliverAs.say
  reasoning := none

/-- The batch of 25 suggestions with ids s1..s25 from the C1 scenario. -/
def batch25 : List AISuggestion := (List.range' 1 25).map mkSuggestion

/-- First suggestion with duplicated id from the C2 scenario. -/
def sugA : AISuggestion := ⟨"first a", "a", "", 0, DeliverAs.say, none⟩

/-- Middle suggestion with the distinct id from the C2 scenario. -/
def sugB : AISuggestion := ⟨"b", "b", "", 0, DeliverAs.say, none⟩

/-- Second suggestion sharing `offer_id` "a" from the C2 scenario. -/
def sugA2 : AISuggestion := ⟨"second a", "a", "", 0, DeliverAs.say, none⟩

/-- Buffer state of the C2 dismiss scenario. -/
def dismissExampleState : ComponentState :=
  { initialState with suggestions := [sugA, sugB, sugA2] }

/-- State whose buffer exceeds a cap of 1, for the C10 counterexample. -/
def overCapState : ComponentState :=
  { initialState with suggestions := [mkSuggestion 1, mkSuggestion 2] }

/-- For a positive cap the JavaScript slice keeps the trailing `n` elements,
which is Mathlib's `List.rtake`. -/
theorem sliceLast_eq_rtake {n : Nat} (hn : n ≠ 0) (l : List AISuggestion) :
    sliceLast n l = l.rtake n := by
  simp [sliceLast, List.rtake, hn]

/-- A list already within the cap is returned unchanged by the slice. -/
theorem sliceLast_of_length_le {n : Nat} {l : List AISuggestion} (h : l.length ≤ n) :
    sliceLast n l = l := by
  unfold sliceLast
  rcases Nat.eq_zero_or_pos n with h0 | h0
  · simp [h0]
  · rw [if_neg (Nat.pos_iff_ne_zero.mp h0), Nat.sub_eq_zero_of_le h, List.drop_zero]

/-- Taking from the front commutes with pre-truncating the second list. -/
theorem take_take_append (n : Nat) (xs ys : List AISuggestion) :
    (xs ++ ys.take n).take n = (xs ++ ys).take n := by
  rw [List.take_append_eq_append_take, List.take_append_eq_append_take, List.take_take,
    Nat.min_eq_left (Nat.sub_le _ _)]

/-- Trailing-window extraction absorbs an earlier trailing-window extraction. -/
theorem rtake_append_rtake (n : Nat) (a m : List AISuggestion) :
    (a.rtake n ++ m).rtake n = (a ++ m).rtake n := by
  have h1 : (a.rtake n).reverse = a.reverse.take n := by
    rw [List.rtake_eq_reverse_take_reverse, List.reverse_reverse]
  calc (a.rtake n ++ m).rtake n
      = ((m.reverse ++ a.reverse.take n).take n).reverse := by
        rw [List.rtake_eq_reverse_take_reverse, List.reverse_append, h1]
    _ = ((m.reverse ++ a.reverse).take n).reverse := by
        rw [take_take_append]
    _ = (a ++ m).rtake n := by
        rw [List.rtake_eq_reverse_take_reverse, List.reverse_append]

/-- The trailing window never exceeds the cap. -/
theorem length_rtake_le (n : Nat) (l : List AISuggestion) : (l.rtake n).length ≤ n := by
  simp only [List.rtake, List.length_drop]
  omega

/-- Folding the per-batch append-and-trim step over trailing windows computes
the trailing window of the full concatenation. -/
theorem foldl_rtake (n : Nat) (hn : n ≠ 0) :
    ∀ (batches : List (List AISuggestion)) (a : List AISuggestion),
      batches.foldl (fun buf b => sliceLast n (buf ++ b)) (a.rtake n)
        = (a ++ batches.flatten).rtake n := by
  intro batches
  induction batches with
  | nil => intro a; simp
  | cons b bs ih =>
      intro a
      simp only [List.foldl_cons, List.flatten_cons]
      rw [sliceLast_eq_rtake hn, rtake_append_rtake, ih (a ++ b), List.append_assoc]

/-- The buffer produced by a fold of suggestion messages is the fold of the
pure list-level append-and-trim step. -/
theorem foldl_onMessage_suggestions (n : Nat) :
    ∀ (batches : List (List AISuggestion)) (st : ComponentState),
      (batches.foldl (fun s b => onMessage n s (suggestionsMessage b) "") st).suggestions
        = batches.foldl (fun buf b => sliceLast n (buf ++ b)) st.suggestions := by
  intro batches
  induction batches with
  | nil => intro st; rfl
  | cons b bs ih =>
      intro st
      simp only [List.foldl_cons]
      rw [show onMessage n st (suggestionsMessage b) ""
            = { st with suggestions := sliceLast n (st.suggestions ++ b), lastUpdate := "" }
          from rfl]
      exact ih _

/-- Claim C1 (amended): for every positive cap and every sequence of inbound
suggestion batches from a fresh mount, the buffer length never exceeds the
cap and the buffer holds exactly the trailing cap-many items of the full
arrival sequence, in arrival order.  (With cap 0 the code performs no
trimming, because slice(-0) is slice(0).) -/
theorem buffer_bounded_window (maxSuggestions : Nat) (hpos : 0 < maxSuggestions)
    (batches : List (List AISuggestion)) :
    (applyBatches maxSuggestions batches).suggestions.length ≤ maxSuggestions ∧
    (applyBatches maxSuggestions batches).suggestions
      = batches.flatten.rtake maxSuggestions := by
  have hne : maxSuggestions ≠ 0 := Nat.pos_iff_ne_zero.mp hpos
  have h1 : (applyBatches maxSuggestions batches).suggestions
      = batches.flatten.rtake maxSuggestions := by
    unfold applyBatches
    rw [foldl_onMessage_suggestions]
    have h := foldl_rtake maxSuggestions hne batches []
    simp only [List.rtake_nil, List.nil_append] at h
    exact h
  exact ⟨h1 ▸ length_rtake_le _ _, h1⟩

/-- Witness for claim C1: with cap 21 and one batch s1..s25 appended to an
empty buffer, the bound holds and the buffer is exactly s5..s25 in order. -/
theorem buffer_bounded_window_witness :
    0 < 21 ∧
    ((applyBatches 21 [batch25]).suggestions.length ≤ 21 ∧
      (applyBatches 21 [batch25]).suggestions = [batch25].flatten.rtake 21) ∧
    (applyBatches 21 [batch25]).suggestions = (List.range' 5 21).map mkSuggestion :=
  ⟨by decide, buffer_bounded_window 21 (by decide) [batch25], by rfl⟩

/-- Counterexample for claim C1 as stated: with cap 0, one appended suggestion
survives, so the buffer length exceeds the cap (slice(-0) does not trim). -/
theorem buffer_cap_zero_not_trimmed :
    (applyBatches 0 [[mkSuggestion 1]]).suggestions = [mkSuggestion 1] ∧
    ¬ ((applyBatches 0 [[mkSuggestion 1]]).suggestions.length ≤ 0) :=
  ⟨rfl, by decide⟩

/-- Claim C5: a message of declared type `instant_suggestions` carrying a
suggestions payload produces exactly the same successor state as the same
message with declared type `suggestions`. -/
theorem instant_suggestions_same_effect (n : Nat) (st : ComponentState)
    (payload : List AISuggestion) (cd : Option CallData) (tr : Option String)
    (now : String) :
    onMessage n st ⟨"instant_suggestions", some payload, cd, tr⟩ now
      = onMessage n st ⟨"suggestions", some payload, cd, tr⟩ now := rfl

/-- Claim C6: the clear-all action empties the buffer, clears the last-update
marker, and leaves connection status, live flag, call context and the
connected flag untouched. -/
theorem clearAll_resets_buffer_only (st : ComponentState) :
    (clearAllSuggestions st).suggestions = [] ∧
    (clearAllSuggestions st).lastUpdate = "" ∧
    (clearAllSuggestions st).connectionStatus = st.connectionStatus ∧
    (clearAllSuggestions st).isLiveStreaming = st.isLiveStreaming ∧
    (clearAllSuggestions st).currentCall = st.currentCall ∧
    (clearAllSuggestions st).isConnected = st.isConnected :=
  ⟨rfl, rfl, rfl, rfl, rfl, rfl⟩

/-- Claim C8: the `use` action returns the state unchanged; the embedding has
no outbound channel because the handler only logs locally. -/
theorem use_action_no_effect (st : ComponentState) (suggestion : AISuggestion) :
    handleSuggestionAction st suggestion SuggestionAction.use = st := rfl

/-- Matching and non-matching occurrence counts partition the buffer length. -/
theorem countP_bne_add_countP_beq (t : String) (l : List AISuggestion) :
    l.countP (fun s => s.offer_id != t) + l.countP (fun s => s.offer_id == t)
      = l.length := by
  induction l with
  | nil => rfl
  | cons x xs ih =>
      simp only [List.countP_cons, List.length_cons]
      simp only [bne] at ih ⊢
      rcases Bool.eq_false_or_eq_true (x.offer_id == t) with hx | hx <;>
        simp [hx] <;> omega

/-- Claim C2: dismissing a target removes exactly the entries whose
`offer_id` matches the target's, keeps every other entry with its
multiplicity in the original relative order (sublist), and shrinks the
length by the number of matches; in particular dismissing id "a" from the
buffer with ids [a, b, a] leaves only the entry with id "b". -/
theorem dismiss_removes_all_matching :
    (∀ (st : ComponentState) (target : AISuggestion),
      ((handleSuggestionAction st target SuggestionAction.dismiss).suggestions).Sublist
          st.suggestions ∧
      (handleSuggestionAction st target SuggestionAction.dismiss).suggestions.countP
          (fun s => s.offer_id == target.offer_id) = 0 ∧
      (handleSuggestionAction st target SuggestionAction.dismiss).suggestions.countP
          (fun s => s.offer_id != target.offer_id)
        = st.suggestions.countP (fun s => s.offer_id != target.offer_id) ∧
      (handleSuggestionAction st target SuggestionAction.dismiss).suggestions.length
        = st.suggestions.length
            - st.suggestions.countP (fun s => s.offer_id == target.offer_id)) ∧
    (handleSuggestionAction dismissExampleState sugA SuggestionAction.dismiss).suggestions
      = [sugB] := by
  constructor
  · intro st target
    have hd : (handleSuggestionAction st target SuggestionAction.dismiss).suggestions
        = st.suggestions.filter (fun s => s.offer_id != target.offer_id) := rfl
    rw [hd]
    refine ⟨List.filter_sublist _, ?_, ?_, ?_⟩
    · rw [List.countP_filter]
      simp [bne]
    · rw [List.countP_filter]
      simp
    · rw [← List.countP_eq_length_filter]
      have h := countP_bne_add_countP_beq target.offer_id st.suggestions
      omega
  · rfl

/-- Counterexample for claim C3 as stated: the transition from
`disconnected` to `connected` is reachable (the connect callback after a
disconnect callback), though the claim lists it as unreachable. -/
theorem disconnected_to_connected_reachable :
    (runTransport [TransportEvent.disconnect]).connectionStatus
      = ConnectionStatus.disconnected ∧
    (runTransport [TransportEvent.disconnect, TransportEvent.connect]).connectionStatus
      = ConnectionStatus.connected :=
  ⟨rfl, rfl⟩

/-- Claim C3 (amended): each transport callback overwrites the status with
the status named by that callback, regardless of the prior status, so from
the initial `connecting` every change lands in one of `connected`,
`disconnected`, `error` (in particular disconnected-to-connected is
reachable) and `connecting` is never re-entered. -/
theorem connectionStatus_follows_events (events : List TransportEvent)
    (e : TransportEvent) :
    (runTransport (events ++ [e])).connectionStatus = eventStatus e ∧
    eventStatus e ≠ ConnectionStatus.connecting ∧
    (∀ st : ComponentState, (transportStep st e).connectionStatus = eventStatus e) := by
  refine ⟨?_, ?_, ?_⟩
  · unfold runTransport
    rw [List.foldl_append]
    cases e <;> rfl
  · cases e <;> simp [eventStatus]
  · intro st
    cases e <;> rfl

/-- Any message carrying a suggestions payload is handled by the append
branch, which touches neither the live flag nor the stored call context. -/
theorem onMessage_payload_preserves_call (n : Nat) (st : ComponentState)
    (m : WebSocketMessage) (now : String) (h : m.suggestions.isSome = true) :
    (onMessage n st m now).isLiveStreaming = st.isLiveStreaming ∧
    (onMessage n st m now).currentCall = st.currentCall := by
  have hcond : (m.type == "suggestions" || m.suggestions.isSome) = true := by
    rw [h, Bool.or_true]
  unfold onMessage
  rw [if_pos hcond]
  exact ⟨rfl, rfl⟩

/-- Processing any run of payload-carrying messages preserves the live flag
and the stored call context. -/
theorem processMessages_preserves_call (n : Nat) :
    ∀ (msgs : List (WebSocketMessage × String)) (st : ComponentState),
      (∀ p ∈ msgs, (p : WebSocketMessage × String).1.suggestions.isSome = true) →
      (processMessages n st msgs).isLiveStreaming = st.isLiveStreaming ∧
      (processMessages n st msgs).currentCall = st.currentCall := by
  intro msgs
  induction msgs with
  | nil => intro st _; exact ⟨rfl, rfl⟩
  | cons p ps ih =>
      intro st h
      have hp := h p (List.mem_cons_self p ps)
      have h1 := onMessage_payload_preserves_call n st p.1 p.2 hp
      have h2 := ih (onMessage n st p.1 p.2) (fun q hq => h q (List.mem_cons_of_mem p hq))
      unfold processMessages at h2 ⊢
      simp only [List.foldl_cons]
      exact ⟨h2.1.trans h1.1, h2.2.trans h1.2⟩

/-- Claim C4 (amended): a `call_started` message carrying no suggestions
payload sets the live flag and stores its call context; both survive any run
of intervening suggestion-carrying messages; and a subsequent `call_ended`
message carrying no suggestions payload clears the live flag and the call
context.  (A call lifecycle message that also carries a suggestions payload
is captured by the append branch instead and does not touch either field.) -/
theorem call_lifecycle_sets_and_clears (n : Nat) (st : ComponentState)
    (cd cd' : Option CallData) (tr tr' : Option String) (t1 t2 : String)
    (mids : List (WebSocketMessage × String))
    (hmids : ∀ p ∈ mids, (p : WebSocketMessage × String).1.suggestions.isSome = true) :
    (onMessage n st ⟨"call_started", none, cd, tr⟩ t1).isLiveStreaming = true ∧
    (onMessage n st ⟨"call_started", none, cd, tr⟩ t1).currentCall = cd ∧
    (processMessages n (onMessage n st ⟨"call_started", none, cd, tr⟩ t1)
        mids).isLiveStreaming = true ∧
    (processMessages n (onMessage n st ⟨"call_started", none, cd, tr⟩ t1)
        mids).currentCall = cd ∧
    (onMessage n (processMessages n (onMessage n st ⟨"call_started", none, cd, tr⟩ t1) mids)
        ⟨"call_ended", none, cd', tr'⟩ t2).isLiveStreaming = false ∧
    (onMessage n (processMessages n (onMessage n st ⟨"call_started", none, cd, tr⟩ t1) mids)
        ⟨"call_ended", none, cd', tr'⟩ t2).currentCall = none := by
  have hstart : onMessage n st ⟨"call_started", none, cd, tr⟩ t1
      = { st with currentCall := cd, isLiveStreaming := true } := rfl
  have hmid := processMessages_preserves_call n mids
    (onMessage n st ⟨"call_started", none, cd, tr⟩ t1) hmids
  have hend : ∀ s : ComponentState, onMessage n s ⟨"call_ended", none, cd', tr'⟩ t2
      = { s with currentCall := none, isLiveStreaming := false } := fun s => rfl
  refine ⟨?_, ?_, ?_, ?_, ?_, ?_⟩
  · rw [hstart]
  · rw [hstart]
  · rw [hmid.1, hstart]
  · rw [hmid.2, hstart]
  · rw [hend]
  · rw [hend]

/-- Witness for claim C4: from a fresh mount, a concrete call-start, one
intervening suggestion batch, and a call-end behave as stated. -/
theorem call_lifecycle_witness :
    (onMessage 21 initialState
        ⟨"call_started", none, some ⟨"CA1"⟩, none⟩ "t1").isLiveStreaming = true ∧
    (onMessage 21 initialState
        ⟨"call_started", none, some ⟨"CA1"⟩, none⟩ "t1").currentCall = some ⟨"CA1"⟩ ∧
    (processMessages 21 (onMessage 21 initialState
          ⟨"call_started", none, some ⟨"CA1"⟩, none⟩ "t1")
        [(suggestionsMessage [mkSuggestion 1], "t")]).isLiveStreaming = true ∧
    (processMessages 21 (onMessage 21 initialState
          ⟨"call_started", none, some ⟨"CA1"⟩, none⟩ "t1")
        [(suggestionsMessage [mkSuggestion 1], "t")]).currentCall = some ⟨"CA1"⟩ ∧
    (onMessage 21 (processMessages 21 (onMessage 21 initialState
            ⟨"call_started", none, some ⟨"CA1"⟩, none⟩ "t1")
          [(suggestionsMessage [mkSuggestion 1], "t")])
        ⟨"call_ended", none, none, none⟩ "t2").isLiveStreaming = false ∧
    (onMessage 21 (processMessages 21 (onMessage 21 initialState
            ⟨"call_started", none, some ⟨"CA1"⟩, none⟩ "t1")
          [(suggestionsMessage [mkSuggestion 1], "t")])
        ⟨"call_ended", none, none, none⟩ "t2").currentCall = none :=
  call_lifecycle_sets_and_clears 21 initialState (some ⟨"CA1"⟩) none none none "t1" "t2"
    [(suggestionsMessage [mkSuggestion 1], "t")] (by decide)

/-- Counterexample for claim C4 as stated: a `call_started` message that also
carries a (even empty) suggestions array is captured by the append branch, so
it neither sets the live flag nor stores the call context. -/
theorem call_started_with_payload_ignored :
    (onMessage 21 initialState
        ⟨"call_started", some [], some ⟨"CA1"⟩, none⟩ "t").isLiveStreaming = false ∧
    (onMessage 21 initialState
        ⟨"call_started", some [], some ⟨"CA1"⟩, none⟩ "t").currentCall = none ∧
    ¬ ((onMessage 21 initialState
          ⟨"call_started", some [], some ⟨"CA1"⟩, none⟩ "t").isLiveStreaming = true) :=
  ⟨rfl, rfl, by decide⟩

/-- Claim C7: a message of unrecognized type that carries no suggestions
payload leaves the whole component state unchanged. -/
theorem unrecognized_message_ignored (n : Nat) (st : ComponentState)
    (m : WebSocketMessage) (now : String) (hs : m.suggestions = none)
    (ht : m.type ∉ (["suggestions", "instant_suggestions", "call_started",
      "call_ended", "transcript_chunk"] : List String)) :
    onMessage n st m now = st := by
  simp only [List.mem_cons, List.mem_singleton, not_or, List.not_mem_nil,
    not_false_iff, and_true] at ht
  obtain ⟨h1, h2, h3, h4, h5⟩ := ht
  simp [onMessage, hs, beq_eq_false_iff_ne.mpr h1, beq_eq_false_iff_ne.mpr h2,
    beq_eq_false_iff_ne.mpr h3, beq_eq_false_iff_ne.mpr h4, beq_eq_false_iff_ne.mpr h5]

/-- Witness for claim C7: a concrete message of type "ping" with no payload
leaves the fresh-mount state unchanged. -/
theorem unrecognized_message_ignored_witness :
    onMessage 21 initialState ⟨"ping", none, none, none⟩ "t" = initialState :=
  unrecognized_message_ignored 21 initialState ⟨"ping", none, none, none⟩ "t" rfl
    (by decide)

/-- Claim C9: any message carrying a suggestions payload is handled by the
append branch regardless of its declared type; in particular `call_started`
and `call_ended` messages carrying a payload touch neither the live flag nor
the stored call context. -/
theorem payload_branch_precedence (n : Nat) (st : ComponentState) (t : String)
    (payload : List AISuggestion) (cd : Option CallData) (tr : Option String)
    (now : String) :
    onMessage n st ⟨t, some payload, cd, tr⟩ now
      = { st with
            suggestions := sliceLast n (st.suggestions ++ payload)
            lastUpdate := now } ∧
    (onMessage n st ⟨"call_started", some payload, cd, tr⟩ now).isLiveStreaming
      = st.isLiveStreaming ∧
    (onMessage n st ⟨"call_started", some payload, cd, tr⟩ now).currentCall
      = st.currentCall ∧
    (onMessage n st ⟨"call_ended", some payload, cd, tr⟩ now).isLiveStreaming
      = st.isLiveStreaming ∧
    (onMessage n st ⟨"call_ended", some payload, cd, tr⟩ now).currentCall
      = st.currentCall := by
  have hgen : ∀ ty : String, onMessage n st ⟨ty, some payload, cd, tr⟩ now
      = { st with
            suggestions := sliceLast n (st.suggestions ++ payload)
            lastUpdate := now } := by
    intro ty
    have hcond : ((⟨ty, some payload, cd, tr⟩ : WebSocketMessage).type == "suggestions"
        || (⟨ty, some payload, cd, tr⟩ : WebSocketMessage).suggestions.isSome) = true := by
      simp
    unfold onMessage
    rw [if_pos hcond]
    rfl
  exact ⟨hgen t, by rw [hgen], by rw [hgen], by rw [hgen], by rw [hgen]⟩

/-- Claim C10 (amended): a `suggestions` message with an absent or empty
payload leaves a buffer that is within the cap unchanged, yet still writes
the last-update marker; the other state fields are untouched.  (A buffer
larger than the cap, possible only when the cap input shrinks between
renders, would be trimmed by the same message.) -/
theorem empty_batch_updates_timestamp_only (n : Nat) (st : ComponentState)
    (p : Option (List AISuggestion)) (cd : Option CallData) (tr : Option String)
    (now : String) (hlen : st.suggestions.length ≤ n)
    (hp : p = none ∨ p = some []) :
    (onMessage n st ⟨"suggestions", p, cd, tr⟩ now).suggestions = st.suggestions ∧
    (onMessage n st ⟨"suggestions", p, cd, tr⟩ now).lastUpdate = now ∧
    (onMessage n st ⟨"suggestions", p, cd, tr⟩ now).currentCall = st.currentCall ∧
    (onMessage n st ⟨"suggestions", p, cd, tr⟩ now).isLiveStreaming
      = st.isLiveStreaming ∧
    (onMessage n st ⟨"suggestions", p, cd, tr⟩ now).connectionStatus
      = st.connectionStatus := by
  have hmsg : onMessage n st ⟨"suggestions", p, cd, tr⟩ now
      = { st with
            suggestions := sliceLast n (st.suggestions ++ p.getD [])
            lastUpdate := now } := by
    have hcond : ((⟨"suggestions", p, cd, tr⟩ : WebSocketMessage).type == "suggestions"
        || (⟨"suggestions", p, cd, tr⟩ : WebSocketMessage).suggestions.isSome) = true := by
      simp
    unfold onMessage
    rw [if_pos hcond]
  have hpayload : p.getD [] = ([] : List AISuggestion) := by
    rcases hp with h | h <;> simp [h]
  refine ⟨?_, by rw [hmsg], by rw [hmsg], by rw [hmsg], by rw [hmsg]⟩
  rw [hmsg]
  show sliceLast n (st.suggestions ++ p.getD []) = st.suggestions
  rw [hpayload, List.append_nil]
  exact sliceLast_of_length_le hlen

/-- Witness for claim C10: a `suggestions` message with an absent payload on
a fresh mount keeps the empty buffer and stamps the update marker. -/
theorem empty_batch_witness :
    (onMessage 21 initialState ⟨"suggestions", none, none, none⟩ "t").suggestions
      = initialState.suggestions ∧
    (onMessage 21 initialState ⟨"suggestions", none, none, none⟩ "t").lastUpdate = "t" ∧
    (onMessage 21 initialState ⟨"suggestions", none, none, none⟩ "t").currentCall
      = initialState.currentCall ∧
    (onMessage 21 initialState ⟨"suggestions", none, none, none⟩ "t").isLiveStreaming
      = initialState.isLiveStreaming ∧
    (onMessage 21 initialState ⟨"suggestions", none, none, none⟩ "t").connectionStatus
      = initialState.connectionStatus :=
  empty_batch_updates_timestamp_only 21 initialState none none none "t" (by decide)
    (Or.inl rfl)

/-- Counterexample for claim C10 as stated: on a state whose buffer exceeds
the cap, a `suggestions` message with an absent payload trims the buffer, so
the buffer contents do change. -/
theorem empty_batch_shrinks_over_cap :
    (onMessage 1 overCapState ⟨"suggestions", none, none, none⟩ "t").suggestions
      = [mkSuggestion 2] ∧
    (onMessage 1 overCapState ⟨"suggestions", none, none, none⟩ "t").suggestions
      ≠ overCapState.suggestions :=
  ⟨rfl, by decide⟩

end LiveAISuggestions
